import Mathlib

/-!
Verification of the bounded fetch-and-aggregate pipeline in
`docs/examples/Working_with_CloudOptimizedGeoTIFF.ipynb`.

The notebook's time-series cells define, in Python:

* `_stats(data, mask)` — builds a numpy masked array from `data`, masks
  positions where `mask == 0`, and returns the 4-tuple
  `(min, max, mean, std)` of the unmasked samples;
* `fetch_bbox(file)` — builds a crop URL from the module-level bounding
  box, issues a GET, decodes the `.npy` payload, calls
  `_stats(data[0:-1], mask[-1])` (note: `mask` is a free identifier) and
  returns `(s[1], file.split("_")[2])`;
* `_filter_futures(tasks)` — iterates the submitted futures in list
  order, yielding each `future.result()` and swallowing every exception;
* two ThreadPoolExecutor cells that submit one `fetch_bbox` task per
  file, wait on `as_completed` for progress display only, then run
  `values, dates = zip(*list(_filter_futures(future_work)))` and plot
  `dates` against `values` with no sorting step.

We embed these shallowly: numeric samples are `ℚ`, a numpy array of
shape `[bands, height, width]` is a list of bands, the outcome of the
HTTP GET plus `numpy.load` for a given file is an explicit
`String → Except PyErr NDArray` parameter, and Python exceptions are the
`Except PyErr` monad.
-/

namespace Titiler

/-- The Python exception kinds reachable in the notebook's pipeline code. -/
inductive PyErr where
  | nameError
  | indexError
  | valueError
  | httpError
  | decodeError
  deriving DecidableEq, Repr

deriving instance DecidableEq for Except

/-- One band of a decoded array: `height × width` samples. -/
abbrev Band := List (List ℚ)

/-- A decoded `.npy` payload of shape `[bands, height, width]`. -/
abbrev NDArray := List Band

/-- Two bands have the same `height × width` shape. -/
def sameShape (a b : Band) : Bool :=
  a.length == b.length && (a.zip b).all fun p => p.1.length == p.2.length

/-- The unmasked samples of `numpy.ma.array(data)` after
`arr.mask = mask == 0`: every sample of every band of `data` whose
position carries a nonzero entry in `m` (numpy broadcasts the
`height × width` mask over the band axis), in row-major order. -/
def maskedSamples (data : NDArray) (m : Band) : List ℚ :=
  (data.map fun band =>
    ((band.zip m).map fun rm =>
      (rm.1.zip rm.2).filterMap fun vm =>
        if vm.2 ≠ 0 then some vm.1 else none).flatten).flatten

def sampleMin (v : ℚ) (vs : List ℚ) : ℚ := vs.foldl min v

def sampleMax (v : ℚ) (vs : List ℚ) : ℚ := vs.foldl max v

def sampleMean (v : ℚ) (vs : List ℚ) : ℚ :=
  (v :: vs).sum / ((v :: vs).length : ℚ)

def sampleVar (v : ℚ) (vs : List ℚ) : ℚ :=
  ((v :: vs).map fun x => (x - sampleMean v vs) ^ 2).sum / ((v :: vs).length : ℚ)

/-- The 4-tuple returned by the notebook's `_stats`. The source's fourth
component is `arr.std().item()`; its square (the variance) is stored
here, since the square root of a rational is not rational and no claim
refers to this component. Only `sMax` (the source's `s[1]`) feeds the
pipeline. -/
structure Stats where
  sMin : ℚ
  sMax : ℚ
  sMean : ℚ
  sVar : ℚ
  deriving DecidableEq, Repr

/-- `_stats(data, mask)` from the notebook: mask out positions where the
mask entry is `0` and return the summary statistics of the remaining
samples. A shape mismatch between a band and the mask, or a fully masked
array, makes numpy's reductions fail; both are modelled as errors (no
claim depends on the exact exception class there). -/
def _stats (data : NDArray) (m : Band) : Except PyErr Stats :=
  if data.all (fun band => sameShape band m) then
    match maskedSamples data m with
    | [] => .error .valueError
    | v :: vs => .ok ⟨sampleMin v vs, sampleMax v vs, sampleMean v vs, sampleVar v vs⟩
  else .error .valueError

/-- Python's `s.split("_")` over the character list, with Python's
semantics for a separator string: `""` splits to `[""]`. -/
def pySplitAux (sep : Char) : List Char → List Char → List (List Char)
  | [], acc => [acc.reverse]
  | c :: cs, acc =>
    if c = sep then acc.reverse :: pySplitAux sep cs []
    else pySplitAux sep cs (c :: acc)

def pySplitUnderscore (s : String) : List String :=
  (pySplitAux '_' s.data []).map String.mk

/-- The label the pipeline derives from a file key: `file.split("_")[2]`,
when that index exists. -/
def derivedLabel (file : String) : Option String :=
  (pySplitUnderscore file)[2]?

/-- The notebook's global namespace binds no identifier `mask`: the only
`mask` in the program is the second parameter of `_stats`, local to it,
and the `%pylab inline` star import introduces no such name either. The
value `fetch_bbox` finds when it evaluates the free identifier `mask` is
therefore modelled as this `Option`, which is `none` for the program as
written (a NameError in Python). -/
def maskGlobal : Option NDArray := none

/-- `fetch_bbox(file)` from the notebook. `resp file` stands for the
combined outcome of `requests.get(crop_url, params)` followed by
`numpy.load(BytesIO(r.content))` — a decoded array on success, an
exception otherwise. On a decoded payload the source evaluates
`_stats(data[0:-1], mask[-1])`: the slice `data[0:-1]` (all but the last
band), then the free identifier `mask` (NameError when unbound), then its
last element, then `_stats`; finally it returns
`(s[1], file.split("_")[2])`. -/
def fetch_bbox (maskG : Option NDArray) (resp : String → Except PyErr NDArray)
    (file : String) : Except PyErr (ℚ × String) :=
  match resp file with
  | .error e => .error e
  | .ok data =>
    match maskG with
    | none => .error .nameError
    | some m =>
      match m.getLast? with
      | none => .error .indexError
      | some lastBand =>
        match _stats data.dropLast lastBand with
        | .error e => .error e
        | .ok s =>
          match (pySplitUnderscore file)[2]? with
          | none => .error .indexError
          | some lab => .ok (s.sMax, lab)

/-- `_filter_futures(tasks)` from the notebook: iterate the futures in
the order of the submitted list, keep each `future.result()`, and
swallow every exception. The function is total — no task's exception
escapes it. -/
def _filter_futures (tasks : List (Except PyErr (ℚ × String))) : List (ℚ × String) :=
  tasks.filterMap Except.toOption

/-- The `future_work` list of one ThreadPoolExecutor cell: one submitted
`fetch_bbox` task per file, in file order. -/
def future_work (maskG : Option NDArray) (resp : String → Except PyErr NDArray)
    (files : List String) : List (Except PyErr (ℚ × String)) :=
  files.map (fetch_bbox maskG resp)

/-- `list(_filter_futures(future_work))`: the collection of
`(statistic, label)` pairs the cell drains, in submission order. -/
def collectSamples (maskG : Option NDArray) (resp : String → Except PyErr NDArray)
    (files : List String) : List (ℚ × String) :=
  _filter_futures (future_work maskG resp files)

/-- `values, dates = zip(*pairs)`: unpacking `zip()` of an empty
argument list into two names raises ValueError; otherwise it yields the
tuple of first components and the tuple of second components. -/
def unzipPairs (l : List (ℚ × String)) : Except PyErr (List ℚ × List String) :=
  match l with
  | [] => .error .valueError
  | _ :: _ => .ok (l.map Prod.fst, l.map Prod.snd)

/-- The whole ThreadPoolExecutor cell up to and including
`values, dates = zip(*list(_filter_futures(future_work)))`: submit one
task per file, drain the futures list, unpack the pairs. The plot then
uses `dates` and `values` exactly as produced here. -/
def fetch_and_aggregate (maskG : Option NDArray) (resp : String → Except PyErr NDArray)
    (files : List String) : Except PyErr (List ℚ × List String) :=
  unzipPairs (collectSamples maskG resp files)

/-! ### The request `fetch_bbox` issues -/

/-- Cell 2 of the notebook: the service base URL (no trailing slash). -/
def titiler_endpoint : String := "https://api.cogeo.xyz"

/-- `_url(src_path)` from the notebook. -/
def _url (src_path : String) : String := "s3://omi-no2-nasa/" ++ src_path

/-- The text Python's f-string interpolation produces for the four
module-level floats `xmin, ymin, xmax, ymax = bounds`, where `bounds`
is computed from the hard-coded GeoJSON polygon. Each is the shortest
round-trip decimal of the float, i.e. the literal from the polygon. -/
def xminStr : String := "-74.1796875"

def yminStr : String := "45.18978009667531"

def xmaxStr : String := "-73.092041015625"

def ymaxStr : String := "46.00459325574482"

/-- The URL `fetch_bbox` builds:
`f"{titiler_endpoint}cog/crop/{xmin},{ymin},{xmax},{ymax}.npy"` —
note the source interpolates `titiler_endpoint` directly against
`cog/crop/` with no `/` in between. -/
def crop_url : String :=
  titiler_endpoint ++ "cog/crop/" ++ xminStr ++ "," ++ yminStr ++ ","
    ++ xmaxStr ++ "," ++ ymaxStr ++ ".npy"

/-- The query parameters `fetch_bbox` passes to `requests.get`, as the
key-value pairs requests serializes (`max_size` is the integer `128`,
rendered as `"128"` on the wire). -/
def cropParams (file : String) : List (String × String) :=
  [("url", _url file), ("bidx", "1"), ("max_size", "128")]

/-- Boolean character-list version of "p begins s". -/
def startsWithChars : List Char → List Char → Bool
  | [], _ => true
  | _ :: _, [] => false
  | p :: ps, c :: cs => p == c && startsWithChars ps cs

/-- The path component of an `https://` URL: drop the scheme, then
everything up to the first `/` (the host). -/
def urlPath (u : String) : String :=
  String.mk ((u.data.drop "https://".length).dropWhile fun c => c ≠ '/')

/-! ### Spec-side comparison definitions -/

/-- The statistic the spec expects for one item, following its words:
the maximum of the value bands' samples at positions where the array's
last (validity-mask) band is nonzero, when any such sample exists. This
definition is for comparison with what `fetch_bbox` computes; it is not
part of the source. -/
def specMaskedMax (data : NDArray) : Option ℚ :=
  match data.getLast? with
  | none => none
  | some m =>
    match maskedSamples data.dropLast m with
    | [] => none
    | v :: vs => some (sampleMax v vs)

/-- Lexicographic comparison of character lists (the order of the date
labels). -/
def charsLe : List Char → List Char → Bool
  | [], _ => true
  | _ :: _, [] => false
  | a :: as, b :: bs => if a < b then true else if b < a then false else charsLe as bs

/-- The spec's post-collection ordering step, following its words (sort
the collected pairs by label); for comparison with the cell, which
performs no such sort. Insertion sort by the label component. -/
def insertByLabel (p : ℚ × String) : List (ℚ × String) → List (ℚ × String)
  | [] => [p]
  | q :: qs => if charsLe p.2.data q.2.data then p :: q :: qs else q :: insertByLabel p qs

def sortByLabel : List (ℚ × String) → List (ℚ × String)
  | [] => []
  | p :: ps => insertByLabel p (sortByLabel ps)

/-! ### Helper lemmas -/

/-- With no global `mask` binding, every `fetch_bbox` task yields no
result, whatever the remote outcome was. -/
theorem fetch_bbox_none_toOption (resp : String → Except PyErr NDArray) (file : String) :
    (fetch_bbox none resp file).toOption = none := by
  unfold fetch_bbox
  cases resp file <;> rfl

/-- A successful `fetch_bbox` result carries the label derived from the
file key by `file.split("_")[2]`. -/
theorem fetch_bbox_ok_label (maskG : Option NDArray) (resp : String → Except PyErr NDArray)
    (file : String) (p : ℚ × String) (h : fetch_bbox maskG resp file = Except.ok p) :
    derivedLabel file = some p.2 := by
  unfold fetch_bbox at h
  repeat' split at h
  all_goals cases h
  rename_i heq
  simpa [derivedLabel] using heq

/-- If every task in a batch fails, the drained collection is empty. -/
theorem collectSamples_eq_nil_of_all_fail (maskG : Option NDArray)
    (resp : String → Except PyErr NDArray) (files : List String)
    (h : ∀ f ∈ files, (fetch_bbox maskG resp f).toOption = none) :
    collectSamples maskG resp files = [] := by
  induction files with
  | nil => rfl
  | cons f fs ih =>
    have hf := h f (List.mem_cons_self f fs)
    have hfs := ih fun g hg => h g (List.mem_cons_of_mem f hg)
    simp only [collectSamples, future_work, _filter_futures, List.map_cons,
      List.filterMap_cons, hf] at hfs ⊢
    exact hfs

/-! ### Concrete inputs for the claims -/

/-- A file key with the dataset's `OMI-Aura_L3-OMNO2d_{date}_…` shape. -/
def fileJan : String := "OMI-Aura_L3-OMNO2d_2019m0115_v003.tif"

def fileFeb : String := "OMI-Aura_L3-OMNO2d_2019m0215_v003.tif"

def fileMar : String := "OMI-Aura_L3-OMNO2d_2019m0315_v003.tif"

def fileOct : String := "OMI-Aura_L3-OMNO2d_2019m1005_v003.tif"

/-- A decoded `2 × 2 × 2` crop payload: one value band and a trailing
validity-mask band that masks out the second column. -/
def arrVal : NDArray := [[[3, 5], [7, 1]], [[1, 0], [1, 0]]]

/-- A remote outcome in which every request succeeds and decodes
to `arrVal`. -/
def respOk : String → Except PyErr NDArray := fun _ => .ok arrVal

/-- A remote outcome in which every request fails at the transport
layer. -/
def respFail : String → Except PyErr NDArray := fun _ => .error .httpError

/-! ### Claims -/

/-- C1: the claim reads the code as recording, for each item whose crop
response decodes to a `[bands, height, width]` array, the maximum of the
value bands' samples where the last (validity-mask) band is nonzero. The
code cannot record that statistic: `_stats(data[0:-1], mask[-1])`
evaluates the unbound global `mask` and raises NameError, so for the
concrete decoded array below — whose claim-expected statistic exists and
equals `7` — `fetch_bbox` yields an error instead of a statistic. -/
theorem C1_stat_never_recorded :
    specMaskedMax arrVal = some 7
    ∧ fetch_bbox maskGlobal respOk fileJan = Except.error PyErr.nameError := by
  exact ⟨by decide, by decide⟩

/-- C2: the identifier `mask` in `_stats(data[0:-1], mask[-1])` is bound
nowhere in the program, so every `fetch_bbox` call errors before
returning a `(statistic, label)` pair, and the pipeline drains zero
StatSamples no matter how many remote requests succeed. -/
theorem C2_mask_unbound_no_samples (resp : String → Except PyErr NDArray) (file : String)
    (files : List String) :
    (∃ e, fetch_bbox maskGlobal resp file = Except.error e)
    ∧ collectSamples maskGlobal resp files = [] := by
  constructor
  · show ∃ e, fetch_bbox none resp file = Except.error e
    unfold fetch_bbox
    cases resp file with
    | error e => exact ⟨e, rfl⟩
    | ok data => exact ⟨.nameError, rfl⟩
  · exact collectSamples_eq_nil_of_all_fail none resp files
      fun f _ => fetch_bbox_none_toOption resp f

/-- C3: a failed task contributes nothing and is dropped exactly where
it sits — the items around it are still drained — a successful task
contributes its single pair, and one task is submitted per item (no
retry). `_filter_futures` is a total function, so no per-item exception
reaches the caller through it. -/
theorem C3_item_failure_is_local (a b : List (Except PyErr (ℚ × String))) (e : PyErr)
    (p : ℚ × String) (maskG : Option NDArray) (resp : String → Except PyErr NDArray)
    (files : List String) :
    _filter_futures (a ++ Except.error e :: b) = _filter_futures a ++ _filter_futures b
    ∧ _filter_futures (a ++ Except.ok p :: b) = _filter_futures a ++ p :: _filter_futures b
    ∧ (future_work maskG resp files).length = files.length := by
  refine ⟨?_, ?_, ?_⟩
  · simp [_filter_futures, List.filterMap_append, List.filterMap_cons, Except.toOption]
  · simp [_filter_futures, List.filterMap_append, List.filterMap_cons, Except.toOption]
  · simp [future_work]

/-- C4, as stated, is false: with one item whose request fails, the
drained collection is indeed empty, but the cell then raises ValueError
at `values, dates = zip(*list(…))`, so an exception does escape the
call. -/
theorem C4_counterexample :
    (∀ f ∈ [fileJan], respFail f = Except.error PyErr.httpError)
    ∧ collectSamples maskGlobal respFail [fileJan] = []
    ∧ fetch_and_aggregate maskGlobal respFail [fileJan] = Except.error PyErr.valueError := by
  exact ⟨by decide, by decide, by decide⟩

/-- C4 (amended): when every task of a batch fails, the drained
collection is empty and no per-item exception escapes the drain, but the
cell's subsequent unpacking of the empty collection raises ValueError. -/
theorem C4_all_fail_empty_then_unpack_raises (maskG : Option NDArray)
    (resp : String → Except PyErr NDArray) (files : List String)
    (h : ∀ f ∈ files, (fetch_bbox maskG resp f).toOption = none) :
    collectSamples maskG resp files = []
    ∧ fetch_and_aggregate maskG resp files = Except.error PyErr.valueError := by
  have hnil := collectSamples_eq_nil_of_all_fail maskG resp files h
  exact ⟨hnil, by simp [fetch_and_aggregate, hnil, unzipPairs]⟩

theorem C4_all_fail_empty_then_unpack_raises_witness :
    collectSamples maskGlobal respFail [fileFeb] = []
    ∧ fetch_and_aggregate maskGlobal respFail [fileFeb] = Except.error PyErr.valueError :=
  C4_all_fail_empty_then_unpack_raises maskGlobal respFail [fileFeb] (by decide)

/-- C5: the claim promises one pair per item when every request
succeeds. In the code every `fetch_bbox` raises NameError after the
successful decode, so a two-item batch whose requests both succeed
drains zero pairs — not two — and the cell then fails at the unpack. -/
theorem C5_all_success_yields_no_samples :
    (∀ f ∈ [fileJan, fileFeb], respOk f = Except.ok arrVal)
    ∧ collectSamples maskGlobal respOk [fileJan, fileFeb] = []
    ∧ ([] : List (ℚ × String)).length ≠ [fileJan, fileFeb].length
    ∧ fetch_and_aggregate maskGlobal respOk [fileJan, fileFeb] = Except.error PyErr.valueError := by
  exact ⟨by decide, by decide, by decide, by decide⟩

/-- C6: whatever the per-item outcomes, the drained collection holds at
most one pair per submitted item, and every label it carries is one of
the labels `file.split("_")[2]` derivable from the submitted files. The
statement is parametric in the global `mask` binding, so it covers both
the notebook as written and any environment in which tasks succeed. -/
theorem C6_size_and_label_invariant (maskG : Option NDArray)
    (resp : String → Except PyErr NDArray) (files : List String) (hne : files ≠ []) :
    (collectSamples maskG resp files).length ≤ files.length
    ∧ ∀ p ∈ collectSamples maskG resp files, p.2 ∈ files.filterMap derivedLabel := by
  constructor
  · calc (collectSamples maskG resp files).length
        ≤ (future_work maskG resp files).length :=
          List.length_filterMap_le Except.toOption (future_work maskG resp files)
      _ = files.length := by simp [future_work]
  · intro p hp
    simp only [collectSamples, _filter_futures, future_work] at hp
    rcases List.mem_filterMap.mp hp with ⟨t, ht, htp⟩
    rcases List.mem_map.mp ht with ⟨f, hf, rfl⟩
    have hok : fetch_bbox maskG resp f = Except.ok p := by
      cases hfb : fetch_bbox maskG resp f with
      | error e => rw [hfb] at htp; cases htp
      | ok q => rw [hfb] at htp; cases htp; rfl
    exact List.mem_filterMap.mpr ⟨f, hf, fetch_bbox_ok_label maskG resp f p hok⟩

/-- An arrangement in which every task succeeds, used to instantiate the
invariants at a run that actually produces samples: the global `mask`
bound to a one-band array of ones, and decodable responses. -/
def maskOnes : NDArray := [[[1, 1], [1, 1]]]

theorem C6_size_and_label_invariant_witness :
    (collectSamples (some maskOnes) respOk [fileJan]).length ≤ [fileJan].length
    ∧ ∀ p ∈ collectSamples (some maskOnes) respOk [fileJan],
        p.2 ∈ [fileJan].filterMap derivedLabel :=
  C6_size_and_label_invariant (some maskOnes) respOk [fileJan] (by decide)

/-- C7: the claim (and the notebook's own endpoint documentation) has
the crop request on the path `/cog/crop/{minx},{miny},{maxx},{maxy}.npy`,
but `fetch_bbox` interpolates `titiler_endpoint` (which has no trailing
slash) directly against `cog/crop/`, producing a URL whose host becomes
`api.cogeo.xyzcog` and whose path begins `/crop/` — while the query
parameters are precisely `url`, `bidx` and `max_size=128`, as claimed. -/
theorem C7_crop_url_missing_slash :
    crop_url =
      "https://api.cogeo.xyzcog/crop/-74.1796875,45.18978009667531,-73.092041015625,46.00459325574482.npy"
    ∧ startsWithChars "/cog/crop/".data (urlPath crop_url).data = false
    ∧ startsWithChars "/crop/".data (urlPath crop_url).data = true
    ∧ cropParams fileJan =
        [("url", "s3://omi-no2-nasa/OMI-Aura_L3-OMNO2d_2019m0115_v003.tif"),
         ("bidx", "1"), ("max_size", "128")] := by
  exact ⟨by decide, by decide, by decide, by decide⟩

/-- A remote outcome for two distinct files, both succeeding, with the
later-dated file submitted first. -/
def respTwo : String → Except PyErr NDArray := fun f =>
  if f = fileOct then .ok [[[5, 2], [1, 0]], [[9, 9], [9, 9]]]
  else .ok [[[3, 2], [1, 0]], [[9, 9], [9, 9]]]

/-- C8, as stated, is false: the cell performs no sort at all. With the
later-dated item submitted first and both tasks succeeding, the cell
unpacks and plots the pairs exactly as drained — labels in submission
order, which differs from the label-sorted order the claim requires. -/
theorem C8_counterexample :
    collectSamples (some maskOnes) respTwo [fileOct, fileJan]
      = [(5, "2019m1005"), (3, "2019m0115")]
    ∧ fetch_and_aggregate (some maskOnes) respTwo [fileOct, fileJan]
      = Except.ok ([5, 3], ["2019m1005", "2019m0115"])
    ∧ collectSamples (some maskOnes) respTwo [fileOct, fileJan]
      ≠ sortByLabel (collectSamples (some maskOnes) respTwo [fileOct, fileJan]) := by
  exact ⟨by decide, by decide, by decide⟩

/-- C8 (amended): the drain iterates the futures list, so the collected
labels form a sublist of the submission-order derived labels — the
result is deterministic in submission order, independent of completion
order, and the cell consumes it without any post-collection sort. -/
theorem C8_labels_in_submission_order (maskG : Option NDArray)
    (resp : String → Except PyErr NDArray) (files : List String) :
    List.Sublist ((collectSamples maskG resp files).map Prod.snd)
      (files.filterMap derivedLabel) := by
  induction files with
  | nil => simp [collectSamples, future_work, _filter_futures]
  | cons f fs ih =>
    simp only [collectSamples, future_work, _filter_futures, List.map_cons,
      List.filterMap_cons] at ih ⊢
    cases hf : fetch_bbox maskG resp f with
    | error e =>
      simp only [hf, Except.toOption]
      cases hd : derivedLabel f
      · exact ih
      · exact List.Sublist.cons _ ih
    | ok p =>
      have hlab := fetch_bbox_ok_label maskG resp f p hf
      simp only [hf, Except.toOption, hlab, List.map_cons]
      exact List.Sublist.cons₂ _ ih

/-- C9, as stated, is false on its "only way the batch fails" half: a
batch with one well-formed item and the window fixed by the notebook
fails as a whole — ValueError from the unpack — merely because its one
request failed, with no precondition violated. -/
theorem C9_counterexample :
    ([fileMar] : List String) ≠ []
    ∧ fetch_and_aggregate maskGlobal respFail [fileMar] = Except.error PyErr.valueError := by
  exact ⟨by decide, by decide⟩

/-- C9 (amended): the cell validates nothing up front. An empty batch is
not rejected before scheduling — zero tasks are submitted, the drain is
empty, and the failure only arises as ValueError at the unpack; and the
same batch-level ValueError occurs for non-empty input whenever every
task fails, so a precondition violation is not the only way the batch
fails. -/
theorem C9_no_precondition_check (maskG : Option NDArray)
    (resp : String → Except PyErr NDArray) (files : List String)
    (hall : ∀ f ∈ files, (fetch_bbox maskG resp f).toOption = none) :
    collectSamples maskG resp [] = []
    ∧ fetch_and_aggregate maskG resp [] = Except.error PyErr.valueError
    ∧ fetch_and_aggregate maskG resp files = Except.error PyErr.valueError := by
  refine ⟨rfl, rfl, ?_⟩
  have hnil := collectSamples_eq_nil_of_all_fail maskG resp files hall
  simp [fetch_and_aggregate, hnil, unzipPairs]

theorem C9_no_precondition_check_witness :
    collectSamples maskGlobal respFail [] = []
    ∧ fetch_and_aggregate maskGlobal respFail [] = Except.error PyErr.valueError
    ∧ fetch_and_aggregate maskGlobal respFail [fileOct] = Except.error PyErr.valueError :=
  C9_no_precondition_check maskGlobal respFail [fileOct] (by decide)

/-! ### The worker pool bound (C10)

Modelled from the spec: the worker pool itself is
`concurrent.futures.ThreadPoolExecutor`, an external library the
notebook only parametrises (`max_workers=10` for the every-15th batch,
`max_workers=50` for the all-files batch). Section 5 of the spec gives
its scheduling model — a fixed-size pool draws pending requests from a
queue, a request starts only when one of the `max_concurrency` workers
is free, and each completion frees a slot — which we embed as a step
relation on pool states. -/

/-- Counts of the per-item tasks of one batch: not yet started, in
flight, and completed. -/
structure PoolState where
  pending : Nat
  running : Nat
  done : Nat
  deriving DecidableEq, Repr

/-- Modelled from the spec: one scheduling step of the bounded pool. A
pending task may start only while fewer than `maxW` tasks are in flight
(requests beyond the limit stay queued); an in-flight task may complete,
freeing its worker slot. -/
inductive PoolStep (maxW : Nat) : PoolState → PoolState → Prop where
  | start (p r d : Nat) : r < maxW → PoolStep maxW ⟨p + 1, r, d⟩ ⟨p, r + 1, d⟩
  | finish (p r d : Nat) : PoolStep maxW ⟨p, r + 1, d⟩ ⟨p, r, d + 1⟩

/-- The pool states reachable while a batch of `n` submitted tasks runs:
initially all `n` are queued and none is in flight. -/
inductive PoolReachable (maxW n : Nat) : PoolState → Prop where
  | init : PoolReachable maxW n ⟨n, 0, 0⟩
  | step (s t : PoolState) : PoolReachable maxW n s → PoolStep maxW s t →
      PoolReachable maxW n t

/-- The notebook's two concurrency limits. -/
def maxWorkersMonthly : Nat := 10

def maxWorkersAll : Nat := 50

/-- C10: in every reachable state of a batch run under a pool bound of
`maxW` — in the source, `maxWorkersMonthly = 10` or `maxWorkersAll = 50`
— at most `maxW` tasks are in flight; a task beyond the limit can only
start after a completion frees a slot. -/
theorem C10_pool_bounds_in_flight (maxW n : Nat) (s : PoolState)
    (h : PoolReachable maxW n s) : s.running ≤ maxW := by
  induction h with
  | init => exact Nat.zero_le maxW
  | step s t _ hstep ih =>
    cases hstep with
    | start p r d hr => exact hr
    | finish p r d => exact Nat.le_of_succ_le ih

theorem C10_pool_bounds_in_flight_witness :
    (PoolState.mk 3 0 0).running ≤ maxWorkersMonthly :=
  C10_pool_bounds_in_flight maxWorkersMonthly 3 (PoolState.mk 3 0 0) PoolReachable.init

end Titiler
